import Mathlib

/-!
# EXTI / SYSCFG low-level drivers for the STM32F446RE

A shallow embedding of `EXTI/Src/EXTI_Program.c` and `SYSCFG/Src/SYSCFG_Program.c`.

* `uint32_t` registers are natural numbers; every C operator on them is followed by an
  explicit reduction modulo `2 ^ 32`.
* Enumerations are natural numbers (a C `enum` object can hold a value that is none of its
  enumerators, and the drivers have `default:` / `else` branches for exactly that case).
* Pointers are `Option`s: `none` is `NULL`.
* The memory-mapped peripherals, the file-static callback table and the data memory that
  output pointers point into make up one explicit state, `Machine`, threaded through every
  driver function.
-/

namespace STM32F446

/-! ## 32-bit unsigned operators -/

/-- The C expression `x << n` evaluated in `uint32_t`.  C leaves the shift undefined for
`n ≥ 32`; the embedding then yields the truncated product, which is `0` for `x = 1`. -/
def shl32 (x n : Nat) : Nat := (x <<< n) % 2 ^ 32

/-- The C expression `x >> n` evaluated in `uint32_t`. -/
def shr32 (x n : Nat) : Nat := (x >>> n) % 2 ^ 32

/-- The C expression `~x` evaluated in `uint32_t` (also the value of an `int` complement once
it is converted to `uint32_t` by the compound assignment it is an operand of). -/
def not32 (x : Nat) : Nat := 2 ^ 32 - 1 - x % 2 ^ 32

/-- The C expression `a | b` evaluated in `uint32_t`. -/
def or32 (a b : Nat) : Nat := (a ||| b) % 2 ^ 32

/-- The C expression `a & b` evaluated in `uint32_t`. -/
def and32 (a b : Nat) : Nat := (a &&& b) % 2 ^ 32

/-- The C cast `(uint8_t) x`. -/
def u8 (x : Nat) : Nat := x % 2 ^ 8

/-! ## Constants of the headers -/

/-- Modelled from the spec: `ErrType.h` is not among the sources.  The spec (section 7) gives
the result codes as a closed taxonomy of three distinct values: success (`OK`), generic
failure (`NOK`) and null-reference failure (`NULL_PTR_ERR`). -/
inductive ErrType where
  | OK
  | NOK
  | NULL_PTR_ERR
  deriving DecidableEq, Repr

export ErrType (OK NOK NULL_PTR_ERR)

/-- Modelled from the spec: `EXTI_Private.h` is not among the sources.  The spec (section 3)
fixes the total line count at 16. -/
def EXTI_LINES_NUM : Nat := 16

/-- Enumerator of `EXTI_TiggerSrc_t` (EXTI_Interface.h). -/
def FALLING_TRIG : Nat := 0
/-- Enumerator of `EXTI_TiggerSrc_t` (EXTI_Interface.h). -/
def RISING_TRIG : Nat := 1
/-- Enumerator of `EXTI_TiggerSrc_t` (EXTI_Interface.h). -/
def FALLING_RISING_TRIG : Nat := 2

/-- Enumerator of `EXTI_InitState_t` (EXTI_Interface.h). -/
def ENABLED : Nat := 0
/-- Enumerator of `EXTI_InitState_t` (EXTI_Interface.h). -/
def DISABLED : Nat := 1

/-- Enumerator of `SYSCFG_Port_t` (SYSCFG_Interface.h). -/
def SYSCFG_PORTA : Nat := 0
/-- Enumerator of `SYSCFG_Port_t` (SYSCFG_Interface.h). -/
def SYSCFG_PORTB : Nat := 1
/-- Enumerator of `SYSCFG_Port_t` (SYSCFG_Interface.h). -/
def SYSCFG_PORTC : Nat := 2
/-- Enumerator of `SYSCFG_Port_t` (SYSCFG_Interface.h). -/
def SYSCFG_PORTD : Nat := 3
/-- Enumerator of `SYSCFG_Port_t` (SYSCFG_Interface.h). -/
def SYSCFG_PORTE : Nat := 4
/-- Enumerator of `SYSCFG_Port_t` (SYSCFG_Interface.h). -/
def SYSCFG_PORTF : Nat := 5
/-- Enumerator of `SYSCFG_Port_t` (SYSCFG_Interface.h). -/
def SYSCFG_PORTG : Nat := 6
/-- Enumerator of `SYSCFG_Port_t` (SYSCFG_Interface.h). -/
def SYSCFG_PORTH : Nat := 7

/-! ## Data model -/

/-- A callback pointer `void (*)(void)`: `none` is `NULL`, `some a` points at the function
at code address `a`. -/
abbrev CallBack_t := Option Nat

/-- The structure `EXTI_Config_t` (EXTI_Interface.h). -/
structure EXTI_Config_t where
  PinNum : Nat
  Trigger_Src : Nat
  Init_State : Nat
  CallBackFunc : CallBack_t

/-- Modelled from the spec: `STM32F446xx.h` is not among the sources.  The spec (section 6)
lists the EXTI registers the driver consumes: interrupt mask (`IMR`), rising edge select
(`RTSR`), falling edge select (`FTSR`) and pending flags (`PR`). -/
structure EXTI_RegDef_t where
  IMR : Nat
  RTSR : Nat
  FTSR : Nat
  PR : Nat

/-- The state the drivers act on: the EXTI register block, the `EXTICR` array of the SYSCFG
block (indices 0..3 are the four registers; a word is kept for every index so that the C
indexing needs no bound), the file-static table `EXTI_CallBackFunctionPtr`, and the
byte-addressed data memory `RAM` that `uint8_t*` arguments point into. -/
structure Machine where
  EXTI : EXTI_RegDef_t
  EXTICR : Nat → Nat
  EXTI_CallBackFunctionPtr : Fin EXTI_LINES_NUM → CallBack_t
  RAM : Nat → Nat

/-- The assignment `EXTI->RTSR = v`. -/
def wrRTSR (s : Machine) (v : Nat) : Machine := { s with EXTI := { s.EXTI with RTSR := v } }

/-- The assignment `EXTI->FTSR = v`. -/
def wrFTSR (s : Machine) (v : Nat) : Machine := { s with EXTI := { s.EXTI with FTSR := v } }

/-- The assignment `EXTI->IMR = v`. -/
def wrIMR (s : Machine) (v : Nat) : Machine := { s with EXTI := { s.EXTI with IMR := v } }

/-- The initial value of the callback table: the initialiser `{NULL}` of
`EXTI_CallBackFunctionPtr` leaves every slot `NULL`. -/
def EXTI_CallBackFunctionPtr_init : Fin EXTI_LINES_NUM → CallBack_t := fun _ => none

/-! ## EXTI driver (EXTI_Program.c) -/

/-- The function `EXTI_u8Init`. -/
def EXTI_u8Init (copy_cfg : Option EXTI_Config_t) (s : Machine) : ErrType × Machine :=
  match copy_cfg with
  | none => (NULL_PTR_ERR, s)
  | some cfg =>
    if h : cfg.PinNum < EXTI_LINES_NUM then
      -- switch (copy_cfg->Trigger_Src)
      let r1 : ErrType × Machine :=
        if cfg.Trigger_Src = RISING_TRIG then
          let s1 := wrRTSR s (or32 s.EXTI.RTSR (shl32 1 cfg.PinNum))
          (OK, wrFTSR s1 (and32 s1.EXTI.FTSR (not32 (shl32 1 cfg.PinNum))))
        else if cfg.Trigger_Src = FALLING_TRIG then
          let s1 := wrFTSR s (or32 s.EXTI.FTSR (shl32 1 cfg.PinNum))
          (OK, wrRTSR s1 (and32 s1.EXTI.RTSR (not32 (shl32 1 cfg.PinNum))))
        else if cfg.Trigger_Src = FALLING_RISING_TRIG then
          let s1 := wrRTSR s (or32 s.EXTI.RTSR (shl32 1 cfg.PinNum))
          (OK, wrFTSR s1 (or32 s1.EXTI.FTSR (shl32 1 cfg.PinNum)))
        else
          (NOK, s)
      -- if (copy_cfg->Init_State == ENABLED) ... else if (... == DISABLED) ... else ...
      let r2 : ErrType × Machine :=
        if cfg.Init_State = ENABLED then
          (r1.1, wrIMR r1.2 (or32 r1.2.EXTI.IMR (shl32 1 cfg.PinNum)))
        else if cfg.Init_State = DISABLED then
          (r1.1, wrIMR r1.2 (and32 r1.2.EXTI.IMR (not32 (shl32 1 cfg.PinNum))))
        else
          (NOK, r1.2)
      -- if (copy_cfg->CallBackFunc != NULL) ... else ...
      match cfg.CallBackFunc with
      | some f =>
        (r2.1, { r2.2 with
                 EXTI_CallBackFunctionPtr :=
                   Function.update r2.2.EXTI_CallBackFunctionPtr ⟨cfg.PinNum, h⟩ (some f) })
      | none => (NULL_PTR_ERR, r2.2)
    else
      (NULL_PTR_ERR, s)

/-- The function `EXTI_u8SetTriggerSrc`. -/
def EXTI_u8SetTriggerSrc (copy_TriggerSrc Copy_LineNum : Nat) (s : Machine) :
    ErrType × Machine :=
  if copy_TriggerSrc = RISING_TRIG then
    let s1 := wrRTSR s (or32 s.EXTI.RTSR (shl32 1 Copy_LineNum))
    (OK, wrFTSR s1 (and32 s1.EXTI.FTSR (not32 (shl32 1 Copy_LineNum))))
  else if copy_TriggerSrc = FALLING_TRIG then
    let s1 := wrFTSR s (or32 s.EXTI.FTSR (shl32 1 Copy_LineNum))
    (OK, wrRTSR s1 (and32 s1.EXTI.RTSR (not32 (shl32 1 Copy_LineNum))))
  else if copy_TriggerSrc = FALLING_RISING_TRIG then
    let s1 := wrRTSR s (or32 s.EXTI.RTSR (shl32 1 Copy_LineNum))
    (OK, wrFTSR s1 (or32 s1.EXTI.FTSR (shl32 1 Copy_LineNum)))
  else
    (NOK, s)

/-- The function `EXTI_u8EnableIRQ`. -/
def EXTI_u8EnableIRQ (Copy_LineNum : Nat) (s : Machine) : Machine :=
  wrIMR s (or32 s.EXTI.IMR (shl32 1 Copy_LineNum))

/-- The function `EXTI_u8DisableIRQ`. -/
def EXTI_u8DisableIRQ (Copy_LineNum : Nat) (s : Machine) : Machine :=
  wrIMR s (and32 s.EXTI.IMR (not32 (shl32 1 Copy_LineNum)))

/-- Modelled from the spec: the hardware behaviour of the pending register is no part of the
sources.  The spec (section 4.1) gives it: writing 1 to a bit clears it, writing 0 is a no-op.
This is the content of PR after the value `v` is stored to it while it holds `pr`. -/
def PR_afterStore (pr v : Nat) : Nat := and32 pr (not32 v)

/-- The value `EXTI_u8ClearPendingFlag` stores to PR: the right-hand side of
`EXTI->PR = (1U << Copy_LineNum)`. -/
def EXTI_u8ClearPendingFlag_stored (Copy_LineNum : Nat) : Nat := shl32 1 Copy_LineNum

/-- The function `EXTI_u8ClearPendingFlag`: a plain store to PR, whose effect on the register
is the write-1-to-clear behaviour of the hardware. -/
def EXTI_u8ClearPendingFlag (Copy_LineNum : Nat) (s : Machine) : Machine :=
  { s with EXTI := { s.EXTI with
      PR := PR_afterStore s.EXTI.PR (EXTI_u8ClearPendingFlag_stored Copy_LineNum) } }

/-- The function `EXTI_u8ReadPendingFlag`.  The output pointer is `none` for `NULL` and
`some a` for the byte at address `a` of the data memory. -/
def EXTI_u8ReadPendingFlag (Copy_LineNum : Nat) (copy_flagStatus : Option Nat) (s : Machine) :
    ErrType × Machine :=
  match copy_flagStatus with
  | some a =>
    (OK, { s with RAM := Function.update s.RAM a (u8 (and32 (shr32 s.EXTI.PR Copy_LineNum) 1)) })
  | none => (NOK, s)

/-! ## SYSCFG driver (SYSCFG_Program.c) -/

/-- The function `SYSCFG_voidSetEXTIPort`. -/
def SYSCFG_voidSetEXTIPort (copy_PortNum copy_LineNum : Nat) (s : Machine) : Machine :=
  let Local_u8RegisterNum := u8 (copy_LineNum / 4)
  let Local_u8BitNum := u8 ((copy_LineNum % 4) * 4)
  let s1 : Machine :=
    { s with
      EXTICR := Function.update s.EXTICR Local_u8RegisterNum
        (and32 (s.EXTICR Local_u8RegisterNum) (not32 (shl32 0b1111 Local_u8BitNum))) }
  { s1 with
    EXTICR := Function.update s1.EXTICR Local_u8RegisterNum
      (or32 (s1.EXTICR Local_u8RegisterNum) (shl32 copy_PortNum Local_u8BitNum)) }

/-! ## Sample state -/

/-- A sample state: line 3 is selected for the falling edge only, lines 0..7 are unmasked,
lines 3 and 5 are pending, `EXTICR[1]` routes lines 4..7 to ports B, D, F and H, slot 2 of
the callback table holds the function at address 4096. -/
def sampleMachine : Machine where
  EXTI := { IMR := 0xFF, RTSR := 0x0, FTSR := 0x8, PR := 0x28 }
  EXTICR := fun i => if i = 1 then 0x7531 else 0
  EXTI_CallBackFunctionPtr := fun i => if i.val = 2 then some 4096 else none
  RAM := fun _ => 0xAA

/-! ## Bit-level lemmas on the 32-bit operators -/

theorem testBit_shl32_one (n i : Nat) :
    (shl32 1 n).testBit i = (decide (i < 32) && decide (n = i)) := by
  unfold shl32
  rw [Nat.testBit_mod_two_pow, Nat.one_shiftLeft, Nat.testBit_two_pow]

theorem testBit_or32 (a b i : Nat) :
    (or32 a b).testBit i = (decide (i < 32) && (a.testBit i || b.testBit i)) := by
  unfold or32
  rw [Nat.testBit_mod_two_pow, Nat.testBit_or]

theorem testBit_and32 (a b i : Nat) :
    (and32 a b).testBit i = (decide (i < 32) && (a.testBit i && b.testBit i)) := by
  unfold and32
  rw [Nat.testBit_mod_two_pow, Nat.testBit_and]

theorem testBit_not32 (x i : Nat) :
    (not32 x).testBit i = (decide (i < 32) && !x.testBit i) := by
  unfold not32
  have hx : x % 2 ^ 32 < 2 ^ 32 := Nat.mod_lt _ (by norm_num)
  have h := Nat.testBit_two_pow_sub_succ hx i
  rw [Nat.sub_sub, Nat.add_comm 1, h, Nat.testBit_mod_two_pow]
  by_cases hi : i < 32 <;> simp [hi]

/-! ## C1: edge selection by `EXTI_u8SetTriggerSrc` -/

/-- C1: for every line `L` in [0,15], every prior state and each of the three policies, after
`EXTI_u8SetTriggerSrc P L`: `RISING_TRIG` leaves bit `L` of RTSR set and bit `L` of FTSR clear,
`FALLING_TRIG` leaves bit `L` of FTSR set and bit `L` of RTSR clear, `FALLING_RISING_TRIG`
leaves bit `L` set in both registers. -/
theorem EXTI_u8SetTriggerSrc_edge_bits (P L : Nat) (s : Machine) (hL : L < 16) :
    (P = RISING_TRIG →
      (EXTI_u8SetTriggerSrc P L s).2.EXTI.RTSR.testBit L = true ∧
      (EXTI_u8SetTriggerSrc P L s).2.EXTI.FTSR.testBit L = false) ∧
    (P = FALLING_TRIG →
      (EXTI_u8SetTriggerSrc P L s).2.EXTI.FTSR.testBit L = true ∧
      (EXTI_u8SetTriggerSrc P L s).2.EXTI.RTSR.testBit L = false) ∧
    (P = FALLING_RISING_TRIG →
      (EXTI_u8SetTriggerSrc P L s).2.EXTI.RTSR.testBit L = true ∧
      (EXTI_u8SetTriggerSrc P L s).2.EXTI.FTSR.testBit L = true) := by
  have h32 : L < 32 := by omega
  refine ⟨?_, ?_, ?_⟩ <;> intro hP <;> subst hP <;>
    simp [EXTI_u8SetTriggerSrc, RISING_TRIG, FALLING_TRIG, FALLING_RISING_TRIG, wrRTSR, wrFTSR,
      testBit_or32, testBit_and32, testBit_not32, testBit_shl32_one, h32]

/-- C1 at line 3 of the sample state, which starts with the falling edge selected: selecting
the rising edge sets the rising bit and clears the falling bit. -/
theorem EXTI_u8SetTriggerSrc_edge_bits_witness :
    (3 < 16) ∧
    ((EXTI_u8SetTriggerSrc RISING_TRIG 3 sampleMachine).2.EXTI.RTSR.testBit 3 = true ∧
      (EXTI_u8SetTriggerSrc RISING_TRIG 3 sampleMachine).2.EXTI.FTSR.testBit 3 = false) :=
  ⟨by decide, (EXTI_u8SetTriggerSrc_edge_bits RISING_TRIG 3 sampleMachine (by decide)).1 rfl⟩

/-! ## C2 – C6: `EXTI_u8Init` -/

/-- C2: `EXTI_u8Init` returns `OK` if and only if the config pointer is non-null, `PinNum` is
below 16, `Trigger_Src` is one of the three policies, `Init_State` is `ENABLED` or `DISABLED`
and `CallBackFunc` is non-null; hence every other input yields a code different from `OK`. -/
theorem EXTI_u8Init_OK_iff (copy_cfg : Option EXTI_Config_t) (s : Machine) :
    (EXTI_u8Init copy_cfg s).1 = OK ↔
      ∃ cfg, copy_cfg = some cfg ∧ cfg.PinNum < 16 ∧
        (cfg.Trigger_Src = FALLING_TRIG ∨ cfg.Trigger_Src = RISING_TRIG ∨
          cfg.Trigger_Src = FALLING_RISING_TRIG) ∧
        (cfg.Init_State = ENABLED ∨ cfg.Init_State = DISABLED) ∧
        cfg.CallBackFunc ≠ none := by
  cases copy_cfg with
  | none => simp [EXTI_u8Init]
  | some cfg =>
    obtain ⟨L, P, S, cb⟩ := cfg
    by_cases hL : L < 16
    · cases cb with
      | none => simp [EXTI_u8Init, EXTI_LINES_NUM, hL]
      | some f =>
        simp only [EXTI_u8Init, EXTI_LINES_NUM, hL, dite_true, RISING_TRIG, FALLING_TRIG,
          FALLING_RISING_TRIG, ENABLED, DISABLED]
        split_ifs <;> simp_all
    · simp [EXTI_u8Init, EXTI_LINES_NUM, hL]

/-- C3 fails as stated: on the sample state, the config for line 3 with a null callback has an
in-range line and yet `EXTI_u8Init` returns for it the very code it returns for a null config
pointer. -/
theorem EXTI_u8Init_null_callback_same_code_as_null_cfg :
    (3 < 16) ∧
    (EXTI_u8Init (some ⟨3, RISING_TRIG, ENABLED, none⟩) sampleMachine).1 =
      (EXTI_u8Init none sampleMachine).1 := by
  decide

/-- C3 (amended): for every non-null config with an in-range line whose `CallBackFunc` is null,
`EXTI_u8Init` returns `NULL_PTR_ERR`, which is also the code returned for a null config
pointer. -/
theorem EXTI_u8Init_null_callback_code (L P S : Nat) (s : Machine) (hL : L < 16) :
    (EXTI_u8Init (some ⟨L, P, S, none⟩) s).1 = NULL_PTR_ERR ∧
    (EXTI_u8Init none s).1 = NULL_PTR_ERR := by
  simp [EXTI_u8Init, EXTI_LINES_NUM, hL]

/-- C3 (amended) on the sample state, line 3. -/
theorem EXTI_u8Init_null_callback_code_witness :
    (3 < 16) ∧
    ((EXTI_u8Init (some ⟨3, RISING_TRIG, ENABLED, none⟩) sampleMachine).1 = NULL_PTR_ERR ∧
      (EXTI_u8Init none sampleMachine).1 = NULL_PTR_ERR) :=
  ⟨by decide, EXTI_u8Init_null_callback_code 3 RISING_TRIG ENABLED sampleMachine (by decide)⟩

/-- C4: `EXTI_u8Init` called with a null config pointer returns `NULL_PTR_ERR` and leaves
RTSR, FTSR, IMR, PR and every slot of the callback table as they were. -/
theorem EXTI_u8Init_null_cfg (s : Machine) :
    (EXTI_u8Init none s).1 = NULL_PTR_ERR ∧
    (EXTI_u8Init none s).2.EXTI.RTSR = s.EXTI.RTSR ∧
    (EXTI_u8Init none s).2.EXTI.FTSR = s.EXTI.FTSR ∧
    (EXTI_u8Init none s).2.EXTI.IMR = s.EXTI.IMR ∧
    (EXTI_u8Init none s).2.EXTI.PR = s.EXTI.PR ∧
    (∀ i, (EXTI_u8Init none s).2.EXTI_CallBackFunctionPtr i = s.EXTI_CallBackFunctionPtr i) :=
  ⟨rfl, rfl, rfl, rfl, rfl, fun _ => rfl⟩

/-- C5: for every config with `PinNum = L` in [0,15], a valid policy `P`, a valid state `S` and
a non-null callback `f`, `EXTI_u8Init` returns `OK`; bit `L` of RTSR and FTSR follows the policy
(rising: R=1, F=0; falling: F=1, R=0; both: R=1, F=1); bit `L` of IMR is 1 for `ENABLED` and 0
for `DISABLED`; slot `L` of the callback table holds `f`. -/
theorem EXTI_u8Init_valid_cfg (L P S f : Nat) (s : Machine) (hL : L < 16)
    (hP : P = FALLING_TRIG ∨ P = RISING_TRIG ∨ P = FALLING_RISING_TRIG)
    (hS : S = ENABLED ∨ S = DISABLED) :
    (EXTI_u8Init (some ⟨L, P, S, some f⟩) s).1 = OK ∧
    (P = RISING_TRIG →
      (EXTI_u8Init (some ⟨L, P, S, some f⟩) s).2.EXTI.RTSR.testBit L = true ∧
      (EXTI_u8Init (some ⟨L, P, S, some f⟩) s).2.EXTI.FTSR.testBit L = false) ∧
    (P = FALLING_TRIG →
      (EXTI_u8Init (some ⟨L, P, S, some f⟩) s).2.EXTI.FTSR.testBit L = true ∧
      (EXTI_u8Init (some ⟨L, P, S, some f⟩) s).2.EXTI.RTSR.testBit L = false) ∧
    (P = FALLING_RISING_TRIG →
      (EXTI_u8Init (some ⟨L, P, S, some f⟩) s).2.EXTI.RTSR.testBit L = true ∧
      (EXTI_u8Init (some ⟨L, P, S, some f⟩) s).2.EXTI.FTSR.testBit L = true) ∧
    (S = ENABLED → (EXTI_u8Init (some ⟨L, P, S, some f⟩) s).2.EXTI.IMR.testBit L = true) ∧
    (S = DISABLED → (EXTI_u8Init (some ⟨L, P, S, some f⟩) s).2.EXTI.IMR.testBit L = false) ∧
    (EXTI_u8Init (some ⟨L, P, S, some f⟩) s).2.EXTI_CallBackFunctionPtr ⟨L, hL⟩ = some f := by
  have h32 : L < 32 := by omega
  rcases hP with hP | hP | hP <;> rcases hS with hS | hS <;> subst hP <;> subst hS <;>
    simp [EXTI_u8Init, EXTI_LINES_NUM, hL, RISING_TRIG, FALLING_TRIG, FALLING_RISING_TRIG,
      ENABLED, DISABLED, wrRTSR, wrFTSR, wrIMR, testBit_or32, testBit_and32, testBit_not32,
      testBit_shl32_one, h32]

/-- C5 on the sample state: line 3, rising edge, enabled, callback at address 8192. -/
theorem EXTI_u8Init_valid_cfg_witness :
    (EXTI_u8Init (some ⟨3, RISING_TRIG, ENABLED, some 8192⟩) sampleMachine).1 = OK ∧
    (EXTI_u8Init (some ⟨3, RISING_TRIG, ENABLED, some 8192⟩) sampleMachine).2.EXTI.RTSR.testBit 3
      = true ∧
    (EXTI_u8Init (some ⟨3, RISING_TRIG, ENABLED, some 8192⟩) sampleMachine).2.EXTI.FTSR.testBit 3
      = false ∧
    (EXTI_u8Init (some ⟨3, RISING_TRIG, ENABLED, some 8192⟩) sampleMachine).2.EXTI.IMR.testBit 3
      = true ∧
    (EXTI_u8Init (some ⟨3, RISING_TRIG, ENABLED, some 8192⟩)
      sampleMachine).2.EXTI_CallBackFunctionPtr ⟨3, by decide⟩ = some 8192 :=
  have h := EXTI_u8Init_valid_cfg 3 RISING_TRIG ENABLED 8192 sampleMachine (by decide)
    (Or.inr (Or.inl rfl)) (Or.inl rfl)
  ⟨h.1, (h.2.1 rfl).1, (h.2.1 rfl).2, h.2.2.2.2.1 rfl, h.2.2.2.2.2.2⟩

/-- C6: for every non-null config with `PinNum = L` in [0,15], a valid policy and a valid state
but a null `CallBackFunc`, `EXTI_u8Init` returns a failure code, RTSR, FTSR and IMR end up as
they do after the same call with any non-null callback `f`, and the callback table, slot `L`
included, is unchanged. -/
theorem EXTI_u8Init_null_callback_not_atomic (L P S : Nat) (s : Machine) (hL : L < 16)
    (hP : P = FALLING_TRIG ∨ P = RISING_TRIG ∨ P = FALLING_RISING_TRIG)
    (hS : S = ENABLED ∨ S = DISABLED) :
    (EXTI_u8Init (some ⟨L, P, S, none⟩) s).1 ≠ OK ∧
    (∀ f : Nat,
      (EXTI_u8Init (some ⟨L, P, S, none⟩) s).2.EXTI.RTSR =
        (EXTI_u8Init (some ⟨L, P, S, some f⟩) s).2.EXTI.RTSR ∧
      (EXTI_u8Init (some ⟨L, P, S, none⟩) s).2.EXTI.FTSR =
        (EXTI_u8Init (some ⟨L, P, S, some f⟩) s).2.EXTI.FTSR ∧
      (EXTI_u8Init (some ⟨L, P, S, none⟩) s).2.EXTI.IMR =
        (EXTI_u8Init (some ⟨L, P, S, some f⟩) s).2.EXTI.IMR) ∧
    (∀ i, (EXTI_u8Init (some ⟨L, P, S, none⟩) s).2.EXTI_CallBackFunctionPtr i =
      s.EXTI_CallBackFunctionPtr i) := by
  rcases hP with hP | hP | hP <;> rcases hS with hS | hS <;> subst hP <;> subst hS <;>
    simp [EXTI_u8Init, EXTI_LINES_NUM, hL, RISING_TRIG, FALLING_TRIG, FALLING_RISING_TRIG,
      ENABLED, DISABLED, wrRTSR, wrFTSR, wrIMR]

/-- C6 on the sample state: line 9, falling edge, disabled.  The failed call has selected the
falling edge of line 9 all the same, and slot 9 still holds `NULL`. -/
theorem EXTI_u8Init_null_callback_not_atomic_witness :
    (EXTI_u8Init (some ⟨9, FALLING_TRIG, DISABLED, none⟩) sampleMachine).1 ≠ OK ∧
    (EXTI_u8Init (some ⟨9, FALLING_TRIG, DISABLED, none⟩) sampleMachine).2.EXTI.FTSR =
      (EXTI_u8Init (some ⟨9, FALLING_TRIG, DISABLED, some 8192⟩) sampleMachine).2.EXTI.FTSR ∧
    (EXTI_u8Init (some ⟨9, FALLING_TRIG, DISABLED, none⟩) sampleMachine).2.EXTI.FTSR = 0x208 ∧
    (EXTI_u8Init (some ⟨9, FALLING_TRIG, DISABLED, none⟩)
      sampleMachine).2.EXTI_CallBackFunctionPtr ⟨9, by decide⟩ = none :=
  have h := EXTI_u8Init_null_callback_not_atomic 9 FALLING_TRIG DISABLED sampleMachine
    (by decide) (Or.inl rfl) (Or.inr rfl)
  ⟨h.1, (h.2.1 8192).2.1, by decide, (h.2.2 ⟨9, by decide⟩).trans rfl⟩

/-! ## C7: masking and unmasking a line -/

theorem or32_or32_self (a m : Nat) : or32 (or32 a m) m = or32 a m := by
  apply Nat.eq_of_testBit_eq
  intro i
  simp only [testBit_or32]
  cases decide (i < 32) <;> cases a.testBit i <;> cases m.testBit i <;> rfl

theorem and32_and32_self (a m : Nat) : and32 (and32 a m) m = and32 a m := by
  apply Nat.eq_of_testBit_eq
  intro i
  simp only [testBit_and32]
  cases decide (i < 32) <;> cases a.testBit i <;> cases m.testBit i <;> rfl

/-- C7: for every line `L` in [0,15] and every prior state, `EXTI_u8EnableIRQ L` followed by
`EXTI_u8DisableIRQ L` leaves bit `L` of IMR at 0, `EXTI_u8DisableIRQ L` followed by
`EXTI_u8EnableIRQ L` leaves it at 1, and each of the two operations applied twice yields the
same state (hence the same IMR value) as applied once. -/
theorem EXTI_IRQ_enable_disable (L : Nat) (s : Machine) (hL : L < 16) :
    (EXTI_u8DisableIRQ L (EXTI_u8EnableIRQ L s)).EXTI.IMR.testBit L = false ∧
    (EXTI_u8EnableIRQ L (EXTI_u8DisableIRQ L s)).EXTI.IMR.testBit L = true ∧
    EXTI_u8EnableIRQ L (EXTI_u8EnableIRQ L s) = EXTI_u8EnableIRQ L s ∧
    EXTI_u8DisableIRQ L (EXTI_u8DisableIRQ L s) = EXTI_u8DisableIRQ L s := by
  have h32 : L < 32 := by omega
  refine ⟨?_, ?_, ?_, ?_⟩
  · simp [EXTI_u8DisableIRQ, EXTI_u8EnableIRQ, wrIMR, testBit_and32, testBit_not32,
      testBit_shl32_one, h32]
  · simp [EXTI_u8DisableIRQ, EXTI_u8EnableIRQ, wrIMR, testBit_or32, testBit_shl32_one, h32]
  · simp [EXTI_u8EnableIRQ, wrIMR, or32_or32_self]
  · simp [EXTI_u8DisableIRQ, wrIMR, and32_and32_self]

/-- C7 on line 3 of the sample state (where line 3 starts unmasked). -/
theorem EXTI_IRQ_enable_disable_witness :
    (3 < 16) ∧
    (EXTI_u8DisableIRQ 3 (EXTI_u8EnableIRQ 3 sampleMachine)).EXTI.IMR.testBit 3 = false ∧
    (EXTI_u8EnableIRQ 3 (EXTI_u8DisableIRQ 3 sampleMachine)).EXTI.IMR.testBit 3 = true ∧
    (EXTI_u8DisableIRQ 3 (EXTI_u8DisableIRQ 3 sampleMachine)).EXTI.IMR = 0xF7 :=
  have h := EXTI_IRQ_enable_disable 3 sampleMachine (by decide)
  ⟨by decide, h.1, h.2.1, (congrArg (fun m => m.EXTI.IMR) h.2.2.2).trans (by decide)⟩

/-! ## C8: routing a line to a port with `SYSCFG_voidSetEXTIPort` -/

theorem testBit_shl32 (x n i : Nat) :
    (shl32 x n).testBit i = (decide (i < 32) && (decide (n ≤ i) && x.testBit (i - n))) := by
  unfold shl32
  rw [Nat.testBit_mod_two_pow, Nat.testBit_shiftLeft]

theorem testBit_fifteen (k : Nat) : (0b1111 : Nat).testBit k = decide (k < 4) :=
  Nat.testBit_two_pow_sub_one 4 k

theorem testBit_port_high (p k : Nat) (hp : p < 8) (hk : 4 ≤ k) : p.testBit k = false := by
  apply Nat.testBit_lt_two_pow
  calc p < 2 ^ 4 := by omega
    _ ≤ 2 ^ k := Nat.pow_le_pow_right (by norm_num) hk

/-- The word `SYSCFG_voidSetEXTIPort` leaves in `EXTICR[L / 4]`, and nowhere else, for a line
below 16. -/
theorem SYSCFG_voidSetEXTIPort_EXTICR (p L : Nat) (s : Machine) (hL : L < 16) :
    (SYSCFG_voidSetEXTIPort p L s).EXTICR =
      Function.update s.EXTICR (L / 4)
        (or32 (and32 (s.EXTICR (L / 4)) (not32 (shl32 0b1111 ((L % 4) * 4))))
          (shl32 p ((L % 4) * 4))) := by
  have h1 : u8 (L / 4) = L / 4 := by unfold u8; omega
  have h2 : u8 ((L % 4) * 4) = (L % 4) * 4 := by unfold u8; omega
  simp [SYSCFG_voidSetEXTIPort, h1, h2]

/-- C8: for every line `L` in [0,15], every port `p` in [0,7] and every prior content of the
EXTICR registers, after `SYSCFG_voidSetEXTIPort p L` the 4-bit field at bit offset
`(L mod 4) * 4` of register `L / 4` equals `p`, every other bit of that 32-bit register is
unchanged, and every other EXTICR register is unchanged. -/
theorem SYSCFG_voidSetEXTIPort_field (p L : Nat) (s : Machine) (hL : L < 16) (hp : p < 8) :
    ((SYSCFG_voidSetEXTIPort p L s).EXTICR (L / 4) >>> ((L % 4) * 4)) % 16 = p ∧
    (∀ i, i < 32 → (i < (L % 4) * 4 ∨ (L % 4) * 4 + 4 ≤ i) →
      ((SYSCFG_voidSetEXTIPort p L s).EXTICR (L / 4)).testBit i =
        (s.EXTICR (L / 4)).testBit i) ∧
    (∀ j, j ≠ L / 4 → (SYSCFG_voidSetEXTIPort p L s).EXTICR j = s.EXTICR j) := by
  rw [SYSCFG_voidSetEXTIPort_EXTICR p L s hL]
  have hoff : (L % 4) * 4 ≤ 12 := by omega
  refine ⟨?_, ?_, ?_⟩
  · apply Nat.eq_of_testBit_eq
    intro k
    rw [show (16 : Nat) = 2 ^ 4 from rfl, Nat.testBit_mod_two_pow, Nat.testBit_shiftRight,
      Function.update_same, testBit_or32, testBit_and32, testBit_not32, testBit_shl32,
      testBit_shl32, testBit_fifteen]
    by_cases hk : k < 4
    · have h32 : (L % 4) * 4 + k < 32 := by omega
      have hle : (L % 4) * 4 ≤ (L % 4) * 4 + k := by omega
      have hsub : (L % 4) * 4 + k - (L % 4) * 4 = k := by omega
      simp [hk, h32, hsub]
    · have hpk : p.testBit k = false := testBit_port_high p k hp (by omega)
      simp [hk, hpk]
  · intro i hi hout
    rw [Function.update_same, testBit_or32, testBit_and32, testBit_not32, testBit_shl32,
      testBit_shl32, testBit_fifteen]
    rcases hout with hlt | hge
    · have hnle : ¬ ((L % 4) * 4 ≤ i) := by omega
      simp [hi, hnle]
    · have hle : (L % 4) * 4 ≤ i := by omega
      have hn4 : ¬ (i - (L % 4) * 4 < 4) := by omega
      have hpk : p.testBit (i - (L % 4) * 4) = false :=
        testBit_port_high p _ hp (by omega)
      simp [hi, hle, hn4, hpk]
  · intro j hj
    exact Function.update_noteq hj _ _

/-- C8 at line 5 and `SYSCFG_PORTC` on the sample state, whose `EXTICR[1]` is `0x7531`: the
register index is 1, the bit offset is 4, bits [7:4] become `0b0010` and the register reads
`0x7521`. -/
theorem SYSCFG_voidSetEXTIPort_field_witness :
    (5 < 16) ∧ (SYSCFG_PORTC < 8) ∧ 5 / 4 = 1 ∧ (5 % 4) * 4 = 4 ∧
    ((SYSCFG_voidSetEXTIPort SYSCFG_PORTC 5 sampleMachine).EXTICR 1 >>> 4) % 16 = 0b0010 ∧
    (SYSCFG_voidSetEXTIPort SYSCFG_PORTC 5 sampleMachine).EXTICR 1 = 0x7521 ∧
    (SYSCFG_voidSetEXTIPort SYSCFG_PORTC 5 sampleMachine).EXTICR 0 = sampleMachine.EXTICR 0 :=
  have h := SYSCFG_voidSetEXTIPort_field SYSCFG_PORTC 5 sampleMachine (by decide) (by decide)
  ⟨by decide, by decide, rfl, rfl, h.1, by decide, h.2.2 0 (by decide)⟩

/-! ## C9, C10: `EXTI_u8ReadPendingFlag` -/

/-- C9: `EXTI_u8ReadPendingFlag` called with a null output pointer returns `NOK` and leaves the
whole state (every register, every callback slot, every memory location) as it was. -/
theorem EXTI_u8ReadPendingFlag_null (L : Nat) (s : Machine) :
    (EXTI_u8ReadPendingFlag L none s).1 = NOK ∧ (EXTI_u8ReadPendingFlag L none s).2 = s :=
  ⟨rfl, rfl⟩

theorem and32_shr32_one (x n : Nat) :
    u8 (and32 (shr32 x n) 1) = if x.testBit n then 1 else 0 := by
  have h2 : (x >>> n) % 2 < 2 := Nat.mod_lt _ (by norm_num)
  have hb : x.testBit n = decide ((x >>> n) % 2 = 1) := by
    rw [Nat.testBit_to_div_mod, Nat.shiftRight_eq_div_pow]
  have hv : u8 (and32 (shr32 x n) 1) = (x >>> n) % 2 := by
    unfold u8 and32 shr32
    rw [Nat.and_one_is_mod]
    omega
  rw [hv, hb]
  by_cases h : (x >>> n) % 2 = 1
  · simp [h]
  · have h0 : (x >>> n) % 2 = 0 := by omega
    simp [h0]

/-- C10: for every line `L` in [0,15], every state and every non-null output location `a`,
`EXTI_u8ReadPendingFlag` returns `OK`, stores at `a` exactly 1 if bit `L` of PR is set and
exactly 0 otherwise, and modifies neither the EXTI registers (PR included), nor the EXTICR
registers, nor the callback table, nor any other memory location. -/
theorem EXTI_u8ReadPendingFlag_ok (L a : Nat) (s : Machine) (hL : L < 16) :
    (EXTI_u8ReadPendingFlag L (some a) s).1 = OK ∧
    (EXTI_u8ReadPendingFlag L (some a) s).2.RAM a = (if s.EXTI.PR.testBit L then 1 else 0) ∧
    (EXTI_u8ReadPendingFlag L (some a) s).2.EXTI = s.EXTI ∧
    (EXTI_u8ReadPendingFlag L (some a) s).2.EXTICR = s.EXTICR ∧
    (EXTI_u8ReadPendingFlag L (some a) s).2.EXTI_CallBackFunctionPtr =
      s.EXTI_CallBackFunctionPtr ∧
    (∀ b, b ≠ a → (EXTI_u8ReadPendingFlag L (some a) s).2.RAM b = s.RAM b) := by
  -- the bound on the line keeps the C shift defined; the model itself needs no bound
  have _ := hL
  refine ⟨rfl, ?_, rfl, rfl, rfl, ?_⟩
  · simp [EXTI_u8ReadPendingFlag, and32_shr32_one]
  · intro b hb
    simp [EXTI_u8ReadPendingFlag, Function.update_noteq hb]

/-- C10 on the sample state, whose PR is `0x28`: line 5 is pending and reads as 1. -/
theorem EXTI_u8ReadPendingFlag_ok_witness :
    (5 < 16) ∧
    (EXTI_u8ReadPendingFlag 5 (some 64) sampleMachine).1 = OK ∧
    (EXTI_u8ReadPendingFlag 5 (some 64) sampleMachine).2.RAM 64 = 1 ∧
    (EXTI_u8ReadPendingFlag 5 (some 64) sampleMachine).2.EXTI.PR = 0x28 :=
  have h := EXTI_u8ReadPendingFlag_ok 5 64 sampleMachine (by decide)
  ⟨by decide, h.1, h.2.1.trans (by decide), (congrArg EXTI_RegDef_t.PR h.2.2.1).trans rfl⟩

/-! ## C11: clearing, then reading, a pending flag -/

/-- Bit `i` of PR after `EXTI_u8ClearPendingFlag L`: cleared at `i = L`, kept elsewhere (within
the 32 bits of the register). -/
theorem testBit_PR_EXTI_u8ClearPendingFlag (L i : Nat) (s : Machine) :
    (EXTI_u8ClearPendingFlag L s).EXTI.PR.testBit i =
      (decide (i < 32) && (s.EXTI.PR.testBit i && !(decide (i < 32) && decide (L = i)))) := by
  simp only [EXTI_u8ClearPendingFlag, PR_afterStore, EXTI_u8ClearPendingFlag_stored,
    testBit_and32, testBit_not32, testBit_shl32_one]
  cases decide (i < 32) <;> simp

/-- C11: for every line `L` in [0,15], every prior state and every non-null output location
`a`, `EXTI_u8ClearPendingFlag L` followed at once by `EXTI_u8ReadPendingFlag L a` returns `OK`
and leaves 0 in the output. -/
theorem EXTI_clear_then_read_pending (L a : Nat) (s : Machine) (hL : L < 16) :
    (EXTI_u8ReadPendingFlag L (some a) (EXTI_u8ClearPendingFlag L s)).1 = OK ∧
    (EXTI_u8ReadPendingFlag L (some a) (EXTI_u8ClearPendingFlag L s)).2.RAM a = 0 := by
  have h32 : L < 32 := by omega
  refine ⟨rfl, ?_⟩
  simp [EXTI_u8ReadPendingFlag, and32_shr32_one, testBit_PR_EXTI_u8ClearPendingFlag, h32]

/-- C11 on the sample state, where line 5 is pending before the clear. -/
theorem EXTI_clear_then_read_pending_witness :
    (5 < 16) ∧ sampleMachine.EXTI.PR.testBit 5 = true ∧
    (EXTI_u8ReadPendingFlag 5 (some 64) (EXTI_u8ClearPendingFlag 5 sampleMachine)).2.RAM 64 = 0 :=
  ⟨by decide, by decide,
    (EXTI_clear_then_read_pending 5 64 sampleMachine (by decide)).2⟩

/-! ## C12, C13: the callback table -/

/-- C12: when `EXTI_u8Init` is given a non-null config for line `L` in [0,15] with a non-null
callback `f` (whatever its trigger and state fields), slot `L` of the callback table holds
exactly `f` afterwards and every other slot holds the value it had before the call. -/
theorem EXTI_u8Init_callback_slot (L P S f : Nat) (s : Machine) (hL : L < 16) :
    (EXTI_u8Init (some ⟨L, P, S, some f⟩) s).2.EXTI_CallBackFunctionPtr ⟨L, hL⟩ = some f ∧
    (∀ i : Fin EXTI_LINES_NUM, i ≠ ⟨L, hL⟩ →
      (EXTI_u8Init (some ⟨L, P, S, some f⟩) s).2.EXTI_CallBackFunctionPtr i =
        s.EXTI_CallBackFunctionPtr i) := by
  have hL16 : L < EXTI_LINES_NUM := hL
  refine ⟨?_, ?_⟩
  · simp only [EXTI_u8Init, hL16, dite_true, Function.update_same]
  · intro i hi
    simp only [EXTI_u8Init, hL16, dite_true, Function.update_noteq hi]
    split_ifs <;> rfl

/-- C12 on the sample state: installing the callback at address 8192 for line 3 leaves it in
slot 3 and keeps the callback of line 2. -/
theorem EXTI_u8Init_callback_slot_witness :
    (EXTI_u8Init (some ⟨3, RISING_TRIG, ENABLED, some 8192⟩)
      sampleMachine).2.EXTI_CallBackFunctionPtr ⟨3, by decide⟩ = some 8192 ∧
    (EXTI_u8Init (some ⟨3, RISING_TRIG, ENABLED, some 8192⟩)
      sampleMachine).2.EXTI_CallBackFunctionPtr ⟨2, by decide⟩ = some 4096 :=
  have h := EXTI_u8Init_callback_slot 3 RISING_TRIG ENABLED 8192 sampleMachine (by decide)
  ⟨h.1, (h.2 ⟨2, by decide⟩ (by decide)).trans rfl⟩

/-- The callback table after `EXTI_u8Init`: either untouched, or updated at slot `PinNum`
alone. -/
theorem EXTI_u8Init_table (cfg : EXTI_Config_t) (s : Machine) (h : cfg.PinNum < EXTI_LINES_NUM) :
    ∀ i : Fin EXTI_LINES_NUM, i ≠ ⟨cfg.PinNum, h⟩ →
      (EXTI_u8Init (some cfg) s).2.EXTI_CallBackFunctionPtr i = s.EXTI_CallBackFunctionPtr i := by
  intro i hi
  obtain ⟨L, P, S, cb⟩ := cfg
  have hL : L < EXTI_LINES_NUM := h
  cases cb with
  | none =>
    simp only [EXTI_u8Init, hL, dite_true]
    split_ifs <;> rfl
  | some f =>
    simp only [EXTI_u8Init, hL, dite_true, Function.update_noteq hi]
    split_ifs <;> rfl

/-- C13: the callback table starts with all 16 slots unset; `EXTI_u8SetTriggerSrc`,
`EXTI_u8EnableIRQ`, `EXTI_u8DisableIRQ`, `EXTI_u8ClearPendingFlag`, `EXTI_u8ReadPendingFlag`
and `SYSCFG_voidSetEXTIPort` leave the table as it was for every input; and a call of
`EXTI_u8Init` changes at most one slot. -/
theorem EXTI_CallBackFunctionPtr_only_Init_mutates :
    EXTI_LINES_NUM = 16 ∧
    (∀ i, EXTI_CallBackFunctionPtr_init i = none) ∧
    (∀ P L s, (EXTI_u8SetTriggerSrc P L s).2.EXTI_CallBackFunctionPtr =
      s.EXTI_CallBackFunctionPtr) ∧
    (∀ L s, (EXTI_u8EnableIRQ L s).EXTI_CallBackFunctionPtr = s.EXTI_CallBackFunctionPtr) ∧
    (∀ L s, (EXTI_u8DisableIRQ L s).EXTI_CallBackFunctionPtr = s.EXTI_CallBackFunctionPtr) ∧
    (∀ L s, (EXTI_u8ClearPendingFlag L s).EXTI_CallBackFunctionPtr =
      s.EXTI_CallBackFunctionPtr) ∧
    (∀ L a s, (EXTI_u8ReadPendingFlag L a s).2.EXTI_CallBackFunctionPtr =
      s.EXTI_CallBackFunctionPtr) ∧
    (∀ p L s, (SYSCFG_voidSetEXTIPort p L s).EXTI_CallBackFunctionPtr =
      s.EXTI_CallBackFunctionPtr) ∧
    (∀ copy_cfg s i j,
      (EXTI_u8Init copy_cfg s).2.EXTI_CallBackFunctionPtr i ≠ s.EXTI_CallBackFunctionPtr i →
      (EXTI_u8Init copy_cfg s).2.EXTI_CallBackFunctionPtr j ≠ s.EXTI_CallBackFunctionPtr j →
      i = j) := by
  refine ⟨rfl, fun _ => rfl, ?_, fun _ _ => rfl, fun _ _ => rfl, fun _ _ => rfl, ?_,
    fun _ _ _ => rfl, ?_⟩
  · intro P L s
    simp only [EXTI_u8SetTriggerSrc]
    split_ifs <;> rfl
  · intro L a s
    cases a <;> rfl
  · intro copy_cfg s i j hi hj
    cases copy_cfg with
    | none => exact absurd rfl hi
    | some cfg =>
      by_cases h : cfg.PinNum < EXTI_LINES_NUM
      · have hi2 : i = ⟨cfg.PinNum, h⟩ := by
          by_contra hne
          exact hi (EXTI_u8Init_table cfg s h i hne)
        have hj2 : j = ⟨cfg.PinNum, h⟩ := by
          by_contra hne
          exact hj (EXTI_u8Init_table cfg s h j hne)
        rw [hi2, hj2]
      · exfalso
        apply hi
        simp only [EXTI_u8Init, h, dite_false]

/-! ## C14, C15: the result of `EXTI_u8SetTriggerSrc` -/

/-- C14: `EXTI_u8SetTriggerSrc` returns `NOK` if and only if the policy is none of
`FALLING_TRIG`, `RISING_TRIG`, `FALLING_RISING_TRIG`; it returns `OK` for each of these three
whatever the line number; and when it returns `NOK` it leaves the whole state, hence RTSR,
FTSR, IMR and PR, unchanged. -/
theorem EXTI_u8SetTriggerSrc_NOK_iff (P L : Nat) (s : Machine) :
    ((EXTI_u8SetTriggerSrc P L s).1 = NOK ↔
      ¬ (P = FALLING_TRIG ∨ P = RISING_TRIG ∨ P = FALLING_RISING_TRIG)) ∧
    ((P = FALLING_TRIG ∨ P = RISING_TRIG ∨ P = FALLING_RISING_TRIG) →
      (EXTI_u8SetTriggerSrc P L s).1 = OK) ∧
    ((EXTI_u8SetTriggerSrc P L s).1 = NOK →
      (EXTI_u8SetTriggerSrc P L s).2.EXTI.RTSR = s.EXTI.RTSR ∧
      (EXTI_u8SetTriggerSrc P L s).2.EXTI.FTSR = s.EXTI.FTSR ∧
      (EXTI_u8SetTriggerSrc P L s).2.EXTI.IMR = s.EXTI.IMR ∧
      (EXTI_u8SetTriggerSrc P L s).2.EXTI.PR = s.EXTI.PR ∧
      (EXTI_u8SetTriggerSrc P L s).2 = s) := by
  simp only [EXTI_u8SetTriggerSrc, RISING_TRIG, FALLING_TRIG, FALLING_RISING_TRIG]
  split_ifs <;> simp_all

/-- C14 at an invalid policy (7) and at a valid policy on a line outside 0..15 (line 20), on
the sample state. -/
theorem EXTI_u8SetTriggerSrc_NOK_iff_witness :
    (EXTI_u8SetTriggerSrc 7 3 sampleMachine).1 = NOK ∧
    (EXTI_u8SetTriggerSrc 7 3 sampleMachine).2.EXTI.FTSR = 0x8 ∧
    (EXTI_u8SetTriggerSrc FALLING_TRIG 20 sampleMachine).1 = OK :=
  have h := EXTI_u8SetTriggerSrc_NOK_iff 7 3 sampleMachine
  have hn : (EXTI_u8SetTriggerSrc 7 3 sampleMachine).1 = NOK := h.1.mpr (by decide)
  ⟨hn, (h.2.2 hn).2.1.trans rfl,
    (EXTI_u8SetTriggerSrc_NOK_iff FALLING_TRIG 20 sampleMachine).2.1 (Or.inl rfl)⟩

/-- C15: the header documents `NOK` for an invalid line number, but the code has no check of
the line: with the valid policy `RISING_TRIG` and the line number 16, which is outside 0..15,
`EXTI_u8SetTriggerSrc` returns `OK` and sets bit 16 of RTSR. -/
theorem EXTI_u8SetTriggerSrc_line16_returns_OK :
    ¬ (16 < EXTI_LINES_NUM) ∧
    (EXTI_u8SetTriggerSrc RISING_TRIG 16 sampleMachine).1 = OK ∧
    (EXTI_u8SetTriggerSrc RISING_TRIG 16 sampleMachine).1 ≠ NOK ∧
    (EXTI_u8SetTriggerSrc RISING_TRIG 16 sampleMachine).2.EXTI.RTSR = 0x10000 := by
  decide

/-! ## C16: the code `EXTI_u8Init` reports for an invalid trigger or state -/

/-- C16 fails as stated: on the sample state, the config for line 3 with the invalid policy 7
and a null callback is non-null and in range, and `EXTI_u8Init` returns `NULL_PTR_ERR` for it,
not `NOK`. -/
theorem EXTI_u8Init_invalid_trigger_null_callback :
    (3 < 16) ∧
    ¬ (7 = FALLING_TRIG ∨ 7 = RISING_TRIG ∨ 7 = FALLING_RISING_TRIG) ∧
    (EXTI_u8Init (some ⟨3, 7, ENABLED, none⟩) sampleMachine).1 = NULL_PTR_ERR ∧
    (EXTI_u8Init (some ⟨3, 7, ENABLED, none⟩) sampleMachine).1 ≠ NOK := by
  decide

/-- C16 (amended): for every non-null config with an in-range line and a non-null
`CallBackFunc` whose `Trigger_Src` or `Init_State` is not a valid enumerator, `EXTI_u8Init`
returns `NOK`, which is distinct from the `NULL_PTR_ERR` it returns for a null config
pointer. -/
theorem EXTI_u8Init_invalid_trigger_or_state (L P S f : Nat) (s : Machine) (hL : L < 16)
    (hbad : ¬ (P = FALLING_TRIG ∨ P = RISING_TRIG ∨ P = FALLING_RISING_TRIG) ∨
      ¬ (S = ENABLED ∨ S = DISABLED)) :
    (EXTI_u8Init (some ⟨L, P, S, some f⟩) s).1 = NOK ∧
    (EXTI_u8Init none s).1 = NULL_PTR_ERR ∧
    (EXTI_u8Init (some ⟨L, P, S, some f⟩) s).1 ≠ (EXTI_u8Init none s).1 := by
  have hL16 : L < EXTI_LINES_NUM := hL
  have h1 : (EXTI_u8Init (some ⟨L, P, S, some f⟩) s).1 = NOK := by
    simp only [EXTI_u8Init, hL16, dite_true, RISING_TRIG, FALLING_TRIG, FALLING_RISING_TRIG,
      ENABLED, DISABLED] at hbad ⊢
    split_ifs <;> simp_all
  refine ⟨h1, rfl, ?_⟩
  rw [h1]
  show NOK ≠ NULL_PTR_ERR
  decide

/-- C16 (amended) on the sample state: line 3, invalid policy 7, callback at address 8192. -/
theorem EXTI_u8Init_invalid_trigger_or_state_witness :
    (3 < 16) ∧
    (EXTI_u8Init (some ⟨3, 7, ENABLED, some 8192⟩) sampleMachine).1 = NOK ∧
    (EXTI_u8Init none sampleMachine).1 = NULL_PTR_ERR :=
  have h := EXTI_u8Init_invalid_trigger_or_state 3 7 ENABLED 8192 sampleMachine (by decide)
    (Or.inl (by decide))
  ⟨by decide, h.1, h.2.1⟩

/-! ## C17: `EXTI_u8Init` and `EXTI_u8SetTriggerSrc` select the edges alike -/

/-- C17: for every line `L` in [0,15], every policy value `P` (valid or not), every state and
callback field and every prior state, the RTSR and FTSR values produced by `EXTI_u8Init` on a
non-null config with `PinNum = L` and `Trigger_Src = P` equal those produced by
`EXTI_u8SetTriggerSrc P L` from the same prior state. -/
theorem EXTI_u8Init_edges_eq_SetTriggerSrc (L P S : Nat) (cb : CallBack_t) (s : Machine)
    (hL : L < 16) :
    (EXTI_u8Init (some ⟨L, P, S, cb⟩) s).2.EXTI.RTSR =
      (EXTI_u8SetTriggerSrc P L s).2.EXTI.RTSR ∧
    (EXTI_u8Init (some ⟨L, P, S, cb⟩) s).2.EXTI.FTSR =
      (EXTI_u8SetTriggerSrc P L s).2.EXTI.FTSR := by
  have hL16 : L < EXTI_LINES_NUM := hL
  cases cb <;>
    simp only [EXTI_u8Init, EXTI_u8SetTriggerSrc, hL16, dite_true] <;>
    split_ifs <;> exact ⟨rfl, rfl⟩

/-- C17 on the sample state: line 3, rising edge; both functions leave `0x8` in RTSR and `0x0`
in FTSR. -/
theorem EXTI_u8Init_edges_eq_SetTriggerSrc_witness :
    (3 < 16) ∧
    (EXTI_u8Init (some ⟨3, RISING_TRIG, DISABLED, none⟩) sampleMachine).2.EXTI.RTSR =
      (EXTI_u8SetTriggerSrc RISING_TRIG 3 sampleMachine).2.EXTI.RTSR ∧
    (EXTI_u8Init (some ⟨3, RISING_TRIG, DISABLED, none⟩) sampleMachine).2.EXTI.FTSR =
      (EXTI_u8SetTriggerSrc RISING_TRIG 3 sampleMachine).2.EXTI.FTSR ∧
    (EXTI_u8SetTriggerSrc RISING_TRIG 3 sampleMachine).2.EXTI.RTSR = 0x8 ∧
    (EXTI_u8SetTriggerSrc RISING_TRIG 3 sampleMachine).2.EXTI.FTSR = 0x0 :=
  have h := EXTI_u8Init_edges_eq_SetTriggerSrc 3 RISING_TRIG DISABLED none sampleMachine
    (by decide)
  ⟨by decide, h.1, h.2, by decide, by decide⟩

/-! ## C18: what `EXTI_u8ClearPendingFlag` stores -/

theorem shl32_one_eq (L : Nat) (h : L < 32) : shl32 1 L = 2 ^ L := by
  unfold shl32
  rw [Nat.one_shiftLeft]
  exact Nat.mod_eq_of_lt (Nat.pow_lt_pow_right (by norm_num) h)

/-- C18: for every line `L` in [0,15], the value `EXTI_u8ClearPendingFlag L` stores to PR is
`2 ^ L`, the word with exactly bit `L` set; it is a function of `L` alone, so the store is a
plain write of that word whatever PR holds; and under the write-1-to-clear behaviour of PR
the pending bit of every other line is left as it was. -/
theorem EXTI_u8ClearPendingFlag_plain_store (L : Nat) (s : Machine) (hL : L < 16) :
    EXTI_u8ClearPendingFlag_stored L = 2 ^ L ∧
    (∀ i, (EXTI_u8ClearPendingFlag_stored L).testBit i = decide (L = i)) ∧
    (EXTI_u8ClearPendingFlag L s).EXTI.PR = PR_afterStore s.EXTI.PR (2 ^ L) ∧
    (∀ i, i < 32 → i ≠ L →
      (EXTI_u8ClearPendingFlag L s).EXTI.PR.testBit i = s.EXTI.PR.testBit i) := by
  have h32 : L < 32 := by omega
  have hst : EXTI_u8ClearPendingFlag_stored L = 2 ^ L := shl32_one_eq L h32
  refine ⟨hst, ?_, ?_, ?_⟩
  · intro i
    rw [hst, Nat.testBit_two_pow]
  · simp only [EXTI_u8ClearPendingFlag, hst]
  · intro i hi hne
    have hne2 : ¬ (L = i) := fun h => hne h.symm
    simp [testBit_PR_EXTI_u8ClearPendingFlag, hi, hne2]

/-- C18 on the sample state, where lines 3 and 5 are pending: clearing line 5 stores `0x20`
and leaves line 3 pending. -/
theorem EXTI_u8ClearPendingFlag_plain_store_witness :
    (5 < 16) ∧
    EXTI_u8ClearPendingFlag_stored 5 = 0x20 ∧
    (EXTI_u8ClearPendingFlag 5 sampleMachine).EXTI.PR.testBit 3 = true ∧
    (EXTI_u8ClearPendingFlag 5 sampleMachine).EXTI.PR = 0x8 :=
  have h := EXTI_u8ClearPendingFlag_plain_store 5 sampleMachine (by decide)
  ⟨by decide, h.1.trans (by decide), (h.2.2.2 3 (by decide) (by decide)).trans (by decide),
    by decide⟩

/-! ## C19: per-line isolation -/

/-- C19: for every line `L` in [0,15], `EXTI_u8SetTriggerSrc P L` changes no bit of the 32-bit
registers RTSR and FTSR other than bit `L` and leaves IMR and PR as they were, and
`EXTI_u8EnableIRQ L` and `EXTI_u8DisableIRQ L` change no bit of IMR other than bit `L` and
leave RTSR, FTSR and PR as they were. -/
theorem EXTI_per_line_isolation (L : Nat) (s : Machine) (hL : L < 16) :
    (∀ P,
      (∀ i, i < 32 → i ≠ L →
        (EXTI_u8SetTriggerSrc P L s).2.EXTI.RTSR.testBit i = s.EXTI.RTSR.testBit i ∧
        (EXTI_u8SetTriggerSrc P L s).2.EXTI.FTSR.testBit i = s.EXTI.FTSR.testBit i) ∧
      (EXTI_u8SetTriggerSrc P L s).2.EXTI.IMR = s.EXTI.IMR ∧
      (EXTI_u8SetTriggerSrc P L s).2.EXTI.PR = s.EXTI.PR) ∧
    ((∀ i, i < 32 → i ≠ L →
        (EXTI_u8EnableIRQ L s).EXTI.IMR.testBit i = s.EXTI.IMR.testBit i) ∧
      (EXTI_u8EnableIRQ L s).EXTI.RTSR = s.EXTI.RTSR ∧
      (EXTI_u8EnableIRQ L s).EXTI.FTSR = s.EXTI.FTSR ∧
      (EXTI_u8EnableIRQ L s).EXTI.PR = s.EXTI.PR) ∧
    ((∀ i, i < 32 → i ≠ L →
        (EXTI_u8DisableIRQ L s).EXTI.IMR.testBit i = s.EXTI.IMR.testBit i) ∧
      (EXTI_u8DisableIRQ L s).EXTI.RTSR = s.EXTI.RTSR ∧
      (EXTI_u8DisableIRQ L s).EXTI.FTSR = s.EXTI.FTSR ∧
      (EXTI_u8DisableIRQ L s).EXTI.PR = s.EXTI.PR) := by
  -- the bound on the line keeps the C shift defined; the model itself needs no bound
  have _ := hL
  refine ⟨?_, ⟨?_, rfl, rfl, rfl⟩, ⟨?_, rfl, rfl, rfl⟩⟩
  · intro P
    refine ⟨?_, ?_, ?_⟩
    · intro i hi hne
      have hne2 : ¬ (L = i) := fun h => hne h.symm
      simp only [EXTI_u8SetTriggerSrc]
      split_ifs <;>
        simp [wrRTSR, wrFTSR, testBit_or32, testBit_and32, testBit_not32, testBit_shl32_one,
          hi, hne2]
    · simp only [EXTI_u8SetTriggerSrc]
      split_ifs <;> rfl
    · simp only [EXTI_u8SetTriggerSrc]
      split_ifs <;> rfl
  · intro i hi hne
    have hne2 : ¬ (L = i) := fun h => hne h.symm
    simp [EXTI_u8EnableIRQ, wrIMR, testBit_or32, testBit_shl32_one, hi, hne2]
  · intro i hi hne
    have hne2 : ¬ (L = i) := fun h => hne h.symm
    simp [EXTI_u8DisableIRQ, wrIMR, testBit_and32, testBit_not32, testBit_shl32_one, hi, hne2]

/-- C19 on the sample state, line 9: selecting both edges leaves `0x200` in RTSR and `0x208`
in FTSR (bit 3 kept), masking line 3 leaves `0xF7` in IMR. -/
theorem EXTI_per_line_isolation_witness :
    (9 < 16) ∧
    (EXTI_u8SetTriggerSrc FALLING_RISING_TRIG 9 sampleMachine).2.EXTI.FTSR.testBit 3 = true ∧
    (EXTI_u8SetTriggerSrc FALLING_RISING_TRIG 9 sampleMachine).2.EXTI.FTSR = 0x208 ∧
    (EXTI_u8SetTriggerSrc FALLING_RISING_TRIG 9 sampleMachine).2.EXTI.IMR = 0xFF ∧
    (EXTI_u8EnableIRQ 9 sampleMachine).EXTI.IMR = 0x2FF ∧
    (EXTI_u8DisableIRQ 9 sampleMachine).EXTI.PR = 0x28 :=
  have h := EXTI_per_line_isolation 9 sampleMachine (by decide)
  ⟨by decide,
    ((h.1 FALLING_RISING_TRIG).1 3 (by decide) (by decide)).2.trans (by decide),
    by decide, (h.1 FALLING_RISING_TRIG).2.1.trans rfl, by decide, h.2.2.2.2.2.trans rfl⟩

/-! ## C20: the index `EXTI_u8Init` writes the callback table at -/

/-- C20: for every config whose `PinNum` is 16 or more, `EXTI_u8Init` returns `NULL_PTR_ERR`
and leaves the whole state, every register and every callback slot, as it was; for every
other config, every slot other than slot `PinNum` (an index below 16) keeps its value. -/
theorem EXTI_u8Init_table_index (cfg : EXTI_Config_t) (s : Machine) :
    (16 ≤ cfg.PinNum →
      (EXTI_u8Init (some cfg) s).1 = NULL_PTR_ERR ∧ (EXTI_u8Init (some cfg) s).2 = s) ∧
    (∀ h : cfg.PinNum < 16, ∀ i : Fin EXTI_LINES_NUM, i ≠ ⟨cfg.PinNum, h⟩ →
      (EXTI_u8Init (some cfg) s).2.EXTI_CallBackFunctionPtr i =
        s.EXTI_CallBackFunctionPtr i) := by
  refine ⟨?_, ?_⟩
  · intro hge
    have hn : ¬ (cfg.PinNum < EXTI_LINES_NUM) := by
      simp only [EXTI_LINES_NUM]
      omega
    simp only [EXTI_u8Init, hn, dite_false, and_self]
  · intro h i hi
    exact EXTI_u8Init_table cfg s h i hi

/-- C20 on the sample state: a config for line 16 is refused with `NULL_PTR_ERR` and leaves
IMR and slot 2 as they were; a config for line 3 keeps slot 2. -/
theorem EXTI_u8Init_table_index_witness :
    (EXTI_u8Init (some ⟨16, RISING_TRIG, DISABLED, some 8192⟩) sampleMachine).1 = NULL_PTR_ERR ∧
    (EXTI_u8Init (some ⟨16, RISING_TRIG, DISABLED, some 8192⟩) sampleMachine).2.EXTI.IMR
      = 0xFF ∧
    (EXTI_u8Init (some ⟨3, RISING_TRIG, DISABLED, some 8192⟩)
      sampleMachine).2.EXTI_CallBackFunctionPtr ⟨2, by decide⟩ = some 4096 :=
  have h16 := (EXTI_u8Init_table_index ⟨16, RISING_TRIG, DISABLED, some 8192⟩ sampleMachine).1
    (by decide)
  have h3 := (EXTI_u8Init_table_index ⟨3, RISING_TRIG, DISABLED, some 8192⟩ sampleMachine).2
    (by decide) ⟨2, by decide⟩ (by decide)
  ⟨h16.1, (congrArg (fun m => m.EXTI.IMR) h16.2).trans rfl, h3.trans rfl⟩

end STM32F446
